import Mathlib

/-!
Shallow embedding of the rustis network handler (src/network/network_handler.rs)
state machine: the send/receive pipelining discipline, the pub/sub overlay and
the reconnect pruning policy. Byte strings are modelled as `String`, oneshot
and mpsc sinks as numeric identifiers, and every side effect (a value sent on a
sink, a message resubmitted through the submission channel, an assertion
failure) is returned explicitly as data.
-/

namespace Rustis

/-- Retry reasons (MOVED/ASK payloads) are opaque to the handler. -/
abbrev RetryReason := Nat

/-- `SubscriptionType` from network_handler.rs. -/
inductive SubscriptionType where
  | Channel
  | Pattern
  | ShardChannel
  deriving DecidableEq, Repr

/-- Typed view of a pub/sub frame (`RefPubSubMessage::from_resp`). -/
inductive RefPubSubMessage where
  | message (channel : String) (payload : Nat)
  | pmessage (pattern : String) (channel : String) (payload : Nat)
  | smessage (channel : String) (payload : Nat)
  | subscribeConf (channel : String)
  | psubscribeConf (pattern : String)
  | ssubscribeConf (channel : String)
  | unsubscribeConf (channel : String)
  | punsubscribeConf (pattern : String)
  | sunsubscribeConf (channel : String)
  deriving DecidableEq, Repr

/-- A framed reply buffer (`RespBuf`). `ok` is the synthetic `RespBuf::ok()`
frame; `simple` is an opaque ordinary reply; `pubsubFrame` is a frame that
`RefPubSubMessage::from_resp` decodes; `monitorLine` is a monitor log line. -/
inductive RespBuf where
  | ok
  | simple (id : Nat)
  | pubsubFrame (m : RefPubSubMessage)
  | monitorLine (id : Nat)
  deriving DecidableEq, Repr

/-- `RespBuf::is_push_message()`: pub/sub frames arrive as RESP3 push frames. -/
def RespBuf.is_push_message : RespBuf → Bool
  | .pubsubFrame _ => true
  | _ => false

/-- `RespBuf::is_monitor_message()`. -/
def RespBuf.is_monitor_message : RespBuf → Bool
  | .monitorLine _ => true
  | _ => false

/-- `RefPubSubMessage::from_resp`. -/
def from_resp : RespBuf → Option RefPubSubMessage
  | .pubsubFrame m => some m
  | _ => none

/-- The error taxonomy visible to the handler. -/
inductive Error where
  | retry (reasons : List RetryReason)
  | client (msg : String)
  | other (id : Nat)
  deriving DecidableEq, Repr

/-- `Result<T>` of the source. -/
abbrev RResult (α : Type) := Except Error α

/-- Is the error a server-signaled redirect (`Error::Retry`)? -/
def Error.isRetry : Error → Bool
  | .retry _ => true
  | _ => false

/-- A command record: static name plus ordered args (`resp::Command`). -/
structure Command where
  name : String
  args : List String
  deriving DecidableEq, Repr

/-- Modelled from the spec: the `Commands` submission payload (§3 of the
design: None placeholder, Single with optional reply sink, Batch with a
results sink); its declaration lives in the client module, outside the
provided sources, but its three variants and their iteration are fixed by
§3 and by every use in network_handler.rs. Sinks are identifiers. -/
inductive Commands where
  | none
  | single (cmd : Command) (sender : Option Nat)
  | batch (cmds : List Command) (sender : Nat)
  deriving DecidableEq, Repr

/-- Iterating `&msg.commands` yields no command for None, the one command for
Single, and the batch's commands in order for Batch. -/
def Commands.toList : Commands → List Command
  | .none => []
  | .single c _ => [c]
  | .batch cs _ => cs

/-- Modelled from the spec: the `Message` envelope (§3), declared in the
client module outside the provided sources; fields match every access in
network_handler.rs. `pub_sub_senders` maps channel bytes to push-sink ids. -/
structure Message where
  commands : Commands
  pub_sub_senders : Option (List (String × Nat))
  push_sender : Option Nat
  retry_on_error : Bool
  retry_reasons : Option (List RetryReason)
  deriving DecidableEq, Repr

/-- `MessageToSend` from network_handler.rs. -/
structure MessageToSend where
  message : Message
  attempts : Nat
  deriving DecidableEq, Repr

/-- `MessageToSend::new`. -/
def MessageToSend.new (message : Message) : MessageToSend :=
  { message := message, attempts := 0 }

/-- `MessageToReceive` from network_handler.rs. -/
structure MessageToReceive where
  message : Message
  num_commands : Nat
  attempts : Nat
  deriving DecidableEq, Repr

/-- `Status` from network_handler.rs. -/
inductive Status where
  | Disconnected
  | Connected
  | Subscribing
  | Subscribed
  | EnteringMonitor
  | Monitor
  | LeavingMonitor
  deriving DecidableEq, Repr

/-- Association-list model of the source's `HashMap`s (keys kept unique by
`alistInsert`); `VecDeque`s become Lean lists with head at the front. -/
def alistGet {α : Type} (k : String) : List (String × α) → Option α
  | [] => Option.none
  | (k2, v) :: rest => if k2 = k then some v else alistGet k rest

def alistRemove {α : Type} (k : String) : List (String × α) → List (String × α)
  | [] => []
  | (k2, v) :: rest => if k2 = k then rest else (k2, v) :: alistRemove k rest

def alistInsert {α : Type} (k : String) (v : α) (l : List (String × α)) :
    List (String × α) :=
  match l with
  | [] => [(k, v)]
  | (k2, v2) :: rest =>
      if k2 = k then (k, v) :: rest else (k2, v2) :: alistInsert k v rest

/-- The mutable state of `NetworkHandler` that the state machine reads and
writes (connection, channels and logging tags live outside the model; the
configuration knob `max_command_attempts` is kept because `reconnect`
consults it). -/
structure NetworkHandler where
  status : Status
  messages_to_send : List MessageToSend
  messages_to_receive : List MessageToReceive
  pending_subscriptions : List (String × (SubscriptionType × Nat))
  pending_unsubscriptions : List (List (String × SubscriptionType))
  subscriptions : List (String × (SubscriptionType × Nat))
  is_reply_on : Bool
  push_sender : Option Nat
  pending_replies : Option (List RespBuf)
  max_command_attempts : Nat
  deriving DecidableEq, Repr

instance {α β : Type} [DecidableEq α] [DecidableEq β] :
    DecidableEq (Except α β) := fun a b =>
  match a, b with
  | .ok x, .ok y =>
      if h : x = y then .isTrue (by rw [h]) else .isFalse (by simp [h])
  | .error x, .error y =>
      if h : x = y then .isTrue (by rw [h]) else .isFalse (by simp [h])
  | .ok _, .error _ => .isFalse (by simp)
  | .error _, .ok _ => .isFalse (by simp)

/-- A value resolved on a caller's oneshot reply sink. -/
inductive SinkValue where
  | single (r : RResult RespBuf)
  | batch (r : RResult (List RespBuf))
  deriving DecidableEq, Repr

/-- One delivery: which sink, and what was sent on it. -/
structure Delivery where
  sink : Nat
  value : SinkValue
  deriving DecidableEq, Repr

/-- The observable effects of one handler step: oneshot deliveries, messages
resubmitted through the submission channel (`msg_sender`), pub/sub and push
mpsc sends, and whether an `assert!` fired. -/
structure Effects where
  deliveries : List Delivery
  retried : List Message
  pubsubSends : List (Nat × RResult RespBuf)
  pushSends : List (Nat × RResult RespBuf)
  panicked : Bool
  deriving DecidableEq, Repr

def Effects.none : Effects :=
  { deliveries := [], retried := [], pubsubSends := [], pushSends := [],
    panicked := false }

def Effects.append (a b : Effects) : Effects :=
  { deliveries := a.deliveries ++ b.deliveries,
    retried := a.retried ++ b.retried,
    pubsubSends := a.pubsubSends ++ b.pubsubSends,
    pushSends := a.pushSends ++ b.pushSends,
    panicked := a.panicked || b.panicked }

/-- The `CLIENT REPLY` detection inside `send_messages`: the first two args of
a `CLIENT` command flip `is_reply_on` (OFF and SKIP to false, ON to true). -/
def clientReplyUpdate (is_reply_on : Bool) (c : Command) : Bool :=
  if c.name = "CLIENT" then
    match c.args with
    | "REPLY" :: "OFF" :: _ => false
    | "REPLY" :: "SKIP" :: _ => false
    | "REPLY" :: "ON" :: _ => true
    | _ => is_reply_on
  else is_reply_on

/-- The per-message loop of `send_messages`: thread `is_reply_on` through the
commands and count `num_commands_to_receive` (a command counts iff the flag is
on after its own `CLIENT REPLY` directive has been applied). -/
def countMessage (flag : Bool) : List Command → Bool × Nat
  | [] => (flag, 0)
  | c :: rest =>
      let f := clientReplyUpdate flag c
      let r := countMessage f rest
      (r.1, (if f then 1 else 0) + r.2)

/-- First phase of `send_messages` over the whole queue: final `is_reply_on`
plus, per queued message, the message with `retry_reasons` taken and its
`num_commands_to_receive`. -/
def annotateMessages (flag : Bool) :
    List MessageToSend → Bool × List (MessageToSend × Nat)
  | [] => (flag, [])
  | mts :: rest =>
      let res := countMessage flag mts.message.commands.toList
      let r := annotateMessages res.1 rest
      (r.1,
        ({ mts with
            message := { mts.message with retry_reasons := Option.none } },
          res.2) :: r.2)

/-- `NetworkHandler::send_messages`, with the outcome of
`Connection::write_batch` passed in. On write error the queue is drained and
each message with a positive reply count and a sink gets the same error; on
success each message with a positive count moves to `messages_to_receive` and
the rest are dropped. -/
def send_messages (h : NetworkHandler) (write : RResult Unit) :
    NetworkHandler × Effects :=
  let step := annotateMessages h.is_reply_on h.messages_to_send
  let flag := step.1
  let annotated := step.2
  match write with
  | .error e =>
      ({ h with is_reply_on := flag, messages_to_send := [] },
       { Effects.none with
          deliveries := annotated.filterMap (fun p =>
            if p.2 > 0 then
              match p.1.message.commands with
              | .single _ (some s) => some ⟨s, .single (.error e)⟩
              | .batch _ s => some ⟨s, .batch (.error e)⟩
              | _ => Option.none
            else Option.none) })
  | .ok _ =>
      ({ h with
          is_reply_on := flag
          messages_to_send := []
          messages_to_receive := h.messages_to_receive ++
            annotated.filterMap (fun p =>
              if p.2 > 0 then
                some ⟨p.1.message, p.2, p.1.attempts⟩
              else Option.none) },
       Effects.none)

/-- Accumulating redirect reasons into a message's `retry_reasons` field
(extend when present, initialise otherwise), as done twice in
`receive_result`. -/
def accumReasons (m : Message) (reasons : List RetryReason) : Message :=
  match m.retry_reasons with
  | some rs => { m with retry_reasons := some (rs ++ reasons) }
  | Option.none => { m with retry_reasons := some reasons }

/-- `NetworkHandler::receive_result`: match one inbound result against the
head of `messages_to_receive`. With an empty queue the source asserts the
result is an error (`panicked` records an assertion failure). Otherwise, when
the head expects one more reply or the result is an error, the head is popped
and either resubmitted (retry path) or resolved on its sink; with more replies
pending and an ok frame, the frame is appended to `pending_replies`. -/
def receive_result (h : NetworkHandler) (result : RResult RespBuf) :
    NetworkHandler × Effects :=
  match h.messages_to_receive with
  | [] =>
      (h, { Effects.none with panicked := result.isOk })
  | mtr :: rest =>
      if mtr.num_commands == 1 || !result.isOk then
        let should_retry :=
          (match result with
           | .error (.retry _) => true
           | _ => false) || mtr.message.retry_reasons.isSome
        if should_retry then
          let msg :=
            match result with
            | .error (.retry reasons) => accumReasons mtr.message reasons
            | _ => mtr.message
          ({ h with messages_to_receive := rest },
           { Effects.none with retried := [msg] })
        else
          match mtr.message.commands, result with
          | .single _ (some s), r =>
              ({ h with messages_to_receive := rest },
               { Effects.none with deliveries := [⟨s, .single r⟩] })
          | .single _ Option.none, _ =>
              ({ h with messages_to_receive := rest }, Effects.none)
          | .batch _ s, .ok buf =>
              ({ h with
                  messages_to_receive := rest
                  pending_replies := Option.none },
               { Effects.none with
                  deliveries :=
                    [⟨s, .batch (.ok ((h.pending_replies.getD []) ++ [buf]))⟩] })
          | .batch _ s, .error e =>
              ({ h with messages_to_receive := rest },
               { Effects.none with deliveries := [⟨s, .batch (.error e)⟩] })
          | .none, _ =>
              ({ h with messages_to_receive := rest }, Effects.none)
      else
        let pr := h.pending_replies.getD []
        match result with
        | .ok v =>
            ({ h with
                pending_replies := some (pr ++ [v])
                messages_to_receive :=
                  { mtr with num_commands := mtr.num_commands - 1 } :: rest },
             Effects.none)
        | .error (.retry reasons) =>
            ({ h with
                pending_replies := some pr
                messages_to_receive :=
                  { mtr with message := accumReasons mtr.message reasons } :: rest },
             Effects.none)
        | .error _ =>
            ({ h with pending_replies := some pr }, Effects.none)

/-- Feed a list of inbound results through `receive_result` in order,
accumulating the effects. -/
def receiveMany (h : NetworkHandler) :
    List (RResult RespBuf) → NetworkHandler × Effects
  | [] => (h, Effects.none)
  | r :: rs =>
      let s := receive_result h r
      let rest := receiveMany s.1 rs
      (rest.1, s.2.append rest.2)

/-- `NetworkHandler::try_match_pubsub_message`: classify a pub/sub frame.
Returns the updated handler, the pub/sub mpsc sends, and `some value` when the
value passes through to ordinary delivery (with subscribe / unsubscribe
confirmations replaced by a synthetic OK when complete). -/
def try_match_pubsub_message (h : NetworkHandler) (value : RResult RespBuf) :
    NetworkHandler × List (Nat × RResult RespBuf) × Option (RResult RespBuf) :=
  match value with
  | .error _ => (h, [], some value)
  | .ok rb =>
    match from_resp rb with
    | Option.none => (h, [], some value)
    | some pm =>
      match pm with
      | .message ch _ | .smessage ch _ =>
          (match alistGet ch h.subscriptions with
           | some p => (h, [(p.2, value)], Option.none)
           | Option.none => (h, [], Option.none))
      | .pmessage pat _ _ =>
          (match alistGet pat h.subscriptions with
           | some p => (h, [(p.2, value)], Option.none)
           | Option.none => (h, [], Option.none))
      | .subscribeConf ch | .psubscribeConf ch | .ssubscribeConf ch =>
          let h' :=
            match alistGet ch h.pending_subscriptions with
            | some entry =>
                { h with
                    pending_subscriptions := alistRemove ch h.pending_subscriptions
                    subscriptions := alistInsert ch entry h.subscriptions }
            | Option.none => h
          if h'.pending_subscriptions.isEmpty then
            (h', [], some (.ok RespBuf.ok))
          else
            (h', [], Option.none)
      | .unsubscribeConf ch | .punsubscribeConf ch | .sunsubscribeConf ch =>
          let h' := { h with subscriptions := alistRemove ch h.subscriptions }
          match h'.pending_unsubscriptions with
          | [] => (h', [], some value)
          | remaining :: restQ =>
              if remaining.length > 1 then
                ({ h' with
                    pending_unsubscriptions := alistRemove ch remaining :: restQ },
                 [], Option.none)
              else
                let h'' := { h' with pending_unsubscriptions := restQ }
                if (alistGet ch remaining).isSome then
                  (h'', [], some (.ok RespBuf.ok))
                else
                  (h'', [], Option.none)

/-- The pub/sub arm shared by the `Subscribing` and `Subscribed` branches of
`handle_result`: match the frame, and when a value passes through hand it to
`receive_result`. -/
def handle_pubsub_result (h : NetworkHandler) (result : RResult RespBuf) :
    NetworkHandler × Effects :=
  let m := try_match_pubsub_message h result
  match m.2.2 with
  | some v =>
      let r := receive_result m.1 v
      (r.1, { r.2 with pubsubSends := m.2.1 ++ r.2.pubsubSends })
  | Option.none => (m.1, { Effects.none with pubsubSends := m.2.1 })

/-- `NetworkHandler::handle_result` for an inbound frame (the `Some` arm of
the source; `None`, a disconnection, triggers `reconnect` instead). Dispatch
on the current status: push frames to the push sink when `Connected`, pub/sub
matching when `Subscribing`/`Subscribed`, monitor log routing when
`Monitor`/`LeavingMonitor`, ordinary delivery otherwise. -/
def handle_result (h : NetworkHandler) (result : RResult RespBuf) :
    NetworkHandler × Effects :=
  match h.status with
  | .Disconnected => (h, Effects.none)
  | .Connected =>
      (match result with
       | .ok rb =>
           if rb.is_push_message then
             match h.push_sender with
             | some ps => (h, { Effects.none with pushSends := [(ps, result)] })
             | Option.none => (h, Effects.none)
           else
             receive_result h result
       | .error _ => receive_result h result)
  | .Subscribing =>
      let h' :=
        { h with status := if result.isOk then Status.Subscribed else Status.Connected }
      handle_pubsub_result h' result
  | .Subscribed => handle_pubsub_result h result
  | .EnteringMonitor =>
      let r := receive_result h result
      ({ r.1 with status := Status.Monitor }, r.2)
  | .Monitor =>
      (match result with
       | .ok rb =>
           if rb.is_monitor_message then
             match h.push_sender with
             | some ps => (h, { Effects.none with pushSends := [(ps, result)] })
             | Option.none => (h, Effects.none)
           else
             receive_result h result
       | .error _ => receive_result h result)
  | .LeavingMonitor =>
      (match result with
       | .ok rb =>
           if rb.is_monitor_message then
             match h.push_sender with
             | some ps => (h, { Effects.none with pushSends := [(ps, result)] })
             | Option.none => (h, Effects.none)
           else
             let r := receive_result h result
             ({ r.1 with status := Status.Connected }, r.2)
       | .error _ =>
           let r := receive_result h result
           ({ r.1 with status := Status.Connected }, r.2))

/-- Feed a list of inbound frames through `handle_result` in order,
accumulating the effects. -/
def handleMany (h : NetworkHandler) :
    List (RResult RespBuf) → NetworkHandler × Effects
  | [] => (h, Effects.none)
  | r :: rs =>
      let s := handle_result h r
      let rest := handleMany s.1 rs
      (rest.1, s.2.append rest.2)

/-- Deriving the subscription type from a subscribe command name
(`handle_message`); `none` models the source's `unreachable!()`. -/
def subscriptionTypeOf (name : String) : Option SubscriptionType :=
  match name with
  | "SUBSCRIBE" => some SubscriptionType.Channel
  | "PSUBSCRIBE" => some SubscriptionType.Pattern
  | "SSUBSCRIBE" => some SubscriptionType.ShardChannel
  | _ => Option.none

/-- The per-message body of `NetworkHandler::handle_message`: register
pub/sub senders and the push sender, transition `status` on protocol-changing
command names, record one set per `UNSUBSCRIBE*` command while `Subscribed`,
and append the message to `messages_to_send`. `none` models the source's
`unreachable!()` (pub/sub senders attached to a non-subscribe command). -/
def handle_message_one (h : NetworkHandler) (msg : Message) :
    Option NetworkHandler :=
  let hOpt : Option NetworkHandler :=
    match msg.pub_sub_senders with
    | some senders =>
        (match msg.commands with
         | .single c _ =>
             (match subscriptionTypeOf c.name with
              | some st =>
                  some { h with
                    pending_subscriptions :=
                      senders.foldl
                        (fun acc p => alistInsert p.1 (st, p.2) acc)
                        h.pending_subscriptions }
              | Option.none => Option.none)
         | _ => Option.none)
    | Option.none => some h
  match hOpt with
  | Option.none => Option.none
  | some h =>
  let h :=
    match msg.push_sender with
    | some ps => { h with push_sender := some ps }
    | Option.none => h
  let msg :=
    { msg with pub_sub_senders := Option.none, push_sender := Option.none }
  match h.status with
  | .Connected =>
      let newStatus :=
        msg.commands.toList.foldl
          (fun st c =>
            match c.name with
            | "SUBSCRIBE" | "PSUBSCRIBE" | "SSUBSCRIBE" => Status.Subscribing
            | "MONITOR" => Status.EnteringMonitor
            | _ => st)
          h.status
      some { h with
        status := newStatus
        messages_to_send := h.messages_to_send ++ [MessageToSend.new msg] }
  | .Subscribed =>
      let newSets :=
        msg.commands.toList.foldl
          (fun acc c =>
            match c.name with
            | "UNSUBSCRIBE" =>
                acc ++ [c.args.foldl
                  (fun m a => alistInsert a SubscriptionType.Channel m) []]
            | "PUNSUBSCRIBE" =>
                acc ++ [c.args.foldl
                  (fun m a => alistInsert a SubscriptionType.Pattern m) []]
            | "SUNSUBSCRIBE" =>
                acc ++ [c.args.foldl
                  (fun m a => alistInsert a SubscriptionType.ShardChannel m) []]
            | _ => acc)
          []
      some { h with
        pending_unsubscriptions := h.pending_unsubscriptions ++ newSets
        messages_to_send := h.messages_to_send ++ [MessageToSend.new msg] }
  | .Monitor =>
      let newStatus :=
        msg.commands.toList.foldl
          (fun st c => if c.name = "RESET" then Status.LeavingMonitor else st)
          h.status
      some { h with
        status := newStatus
        messages_to_send := h.messages_to_send ++ [MessageToSend.new msg] }
  | _ =>
      some { h with
        messages_to_send := h.messages_to_send ++ [MessageToSend.new msg] }

/-- The fixed error delivered by `reconnect` when giving up on a message. -/
def disconnectedError : Error := Error.client "Disconnected from server"

/-- The sink deliveries produced when `reconnect` gives up on a message. -/
def giveUpDeliveries (m : Message) : List Delivery :=
  match m.commands with
  | .single _ (some s) => [⟨s, .single (.error disconnectedError)⟩]
  | .batch _ s => [⟨s, .batch (.error disconnectedError)⟩]
  | _ => []

/-- First phase of `reconnect` on `messages_to_receive`: bump `attempts` of
every message with `retry_on_error`. -/
def bumpReceiveAttempts (l : List MessageToReceive) : List MessageToReceive :=
  l.map (fun m =>
    if m.message.retry_on_error then { m with attempts := m.attempts + 1 } else m)

/-- The head-pop condition of `reconnect`: give up on a message that is not
retryable or whose attempts have reached `max_command_attempts`. -/
def shouldGiveUp (maxAttempts : Nat) (m : MessageToReceive) : Bool :=
  !m.message.retry_on_error || decide (maxAttempts ≤ m.attempts)

/-- The head-popping loop of `reconnect` on `messages_to_receive`: pop and
resolve with `disconnectedError` until the first message that is still
retryable. -/
def popGiveUps (maxAttempts : Nat) :
    List MessageToReceive → List MessageToReceive × List Delivery
  | [] => ([], [])
  | m :: rest =>
      if shouldGiveUp maxAttempts m then
        let r := popGiveUps maxAttempts rest
        (r.1, giveUpDeliveries m.message ++ r.2)
      else (m :: rest, [])

/-- The `messages_to_receive` pruning phase of `NetworkHandler::reconnect`
(attempt bump followed by the head-popping loop). -/
def reconnect_prune_receive (h : NetworkHandler) :
    NetworkHandler × List Delivery :=
  let r := popGiveUps h.max_command_attempts (bumpReceiveAttempts h.messages_to_receive)
  ({ h with messages_to_receive := r.1 }, r.2)

/-- A minimal handler state used to build the concrete inputs below. -/
def baseHandler : NetworkHandler :=
  { status := Status.Connected
    messages_to_send := []
    messages_to_receive := []
    pending_subscriptions := []
    pending_unsubscriptions := []
    subscriptions := []
    is_reply_on := true
    push_sender := Option.none
    pending_replies := Option.none
    max_command_attempts := 3 }

/-- An ordinary single-command submission with a reply sink. -/
def ordMsg (c : Command) (sink : Nat) : Message :=
  { commands := Commands.single c (some sink)
    pub_sub_senders := Option.none
    push_sender := Option.none
    retry_on_error := true
    retry_reasons := Option.none }

/-- A batch submission with a results sink. -/
def batchMsg (cs : List Command) (sink : Nat) : Message :=
  { commands := Commands.batch cs sink
    pub_sub_senders := Option.none
    push_sender := Option.none
    retry_on_error := true
    retry_reasons := Option.none }

/-! ### Basic lemmas about the embedding -/

theorem Effects.none_append (e : Effects) : Effects.none.append e = e := by
  simp [Effects.append, Effects.none]

theorem Effects.append_none (e : Effects) : e.append Effects.none = e := by
  simp [Effects.append, Effects.none]

theorem clientReplyUpdate_of_ne (b : Bool) (c : Command)
    (hc : c.name ≠ "CLIENT") : clientReplyUpdate b c = b := by
  simp [clientReplyUpdate, hc]

theorem countMessage_no_client (cs : List Command)
    (hcs : ∀ c ∈ cs, c.name ≠ "CLIENT") :
    countMessage true cs = (true, cs.length) := by
  induction cs with
  | nil => rfl
  | cons c rest ih =>
      have hc : c.name ≠ "CLIENT" := hcs c (List.mem_cons_self c rest)
      have hrest := ih (fun x hx => hcs x (List.mem_cons_of_mem c hx))
      simp [countMessage, clientReplyUpdate_of_ne true c hc, hrest,
        Nat.add_comm]

/-! ### Concrete states used by the counterexamples and witnesses -/

def pingCmd : Command := { name := "PING", args := [] }

def skipCmd : Command := { name := "CLIENT", args := ["REPLY", "SKIP"] }

def replyOffCmd : Command := { name := "CLIENT", args := ["REPLY", "OFF"] }

/-- A fire-and-forget single submission (no reply sink). -/
def fireForgetMsg : Message :=
  { commands := Commands.single pingCmd Option.none
    pub_sub_senders := Option.none
    push_sender := Option.none
    retry_on_error := true
    retry_reasons := Option.none }

/-! ### C3 -/

/-- C3: failing-input evaluation for the `CLIENT REPLY` accounting claim.
With `is_reply_on` initially true, the command sequence
`[CLIENT REPLY SKIP, PING, PING]` leaves the flag false and counts 0 replies:
the source never restores `is_reply_on` after SKIP, so the second `PING`
(which the claim says is counted again) still contributes 0. -/
theorem client_reply_skip_failing :
    countMessage true [skipCmd, pingCmd, pingCmd] = (false, 0) := by
  decide

/-! ### C9 -/

/-- C9: when `receive_result` runs with `messages_to_receive` empty, the
handler asserts the inbound result is an error: an `Ok` result fails the
assertion (panic), while an error leaves the handler state unchanged and
produces no effect. -/
theorem unexpected_frame_asserts (h : NetworkHandler) (r : RResult RespBuf)
    (hq : h.messages_to_receive = []) :
    (r.isOk = true → (receive_result h r).2.panicked = true) ∧
    (r.isOk = false →
      (receive_result h r).1 = h ∧ (receive_result h r).2 = Effects.none) := by
  unfold receive_result
  rw [hq]
  constructor
  · intro hr
    simp [hr]
  · intro hr
    simp [hr, Effects.none]

theorem unexpected_frame_asserts_witness :
    ((Except.ok (RespBuf.simple 0) : RResult RespBuf).isOk = true →
      (receive_result baseHandler (.ok (.simple 0))).2.panicked = true) ∧
    ((Except.ok (RespBuf.simple 0) : RResult RespBuf).isOk = false →
      (receive_result baseHandler (.ok (.simple 0))).1 = baseHandler ∧
      (receive_result baseHandler (.ok (.simple 0))).2 = Effects.none) :=
  unexpected_frame_asserts baseHandler (.ok (.simple 0)) rfl

/-! ### C5 -/

def noRetryGetMsg : Message :=
  { commands := Commands.single { name := "GET", args := ["k"] } (some 7)
    pub_sub_senders := Option.none
    push_sender := Option.none
    retry_on_error := false
    retry_reasons := Option.none }

def hNoRetry : NetworkHandler :=
  { baseHandler with messages_to_receive := [⟨noRetryGetMsg, 1, 0⟩] }

/-- C5 counterexample: a message submitted with `retry_on_error = false` that
receives a server redirect (`Error::Retry`) IS resubmitted through the
submission channel (and gets no reply on its sink): `receive_result` never
consults `retry_on_error`. -/
theorem retry_gating_counterexample :
    noRetryGetMsg.retry_on_error = false ∧
    (receive_result hNoRetry (.error (.retry [4]))).2.retried =
      [{ noRetryGetMsg with retry_reasons := some [4] }] ∧
    (receive_result hNoRetry (.error (.retry [4]))).2.deliveries = [] := by
  decide

/-- C5 amended: on a server-signaled redirect (`Error::Retry`) for the head
inflight message, `receive_result` always resubmits the message (with the
reasons accumulated into `retry_reasons`), whatever its `retry_on_error`
flag; the sink receives nothing. `retry_on_error` only gates the reconnect
path. -/
theorem retry_resubmits_regardless (h : NetworkHandler)
    (mtr : MessageToReceive) (rest : List MessageToReceive)
    (reasons : List RetryReason)
    (hq : h.messages_to_receive = mtr :: rest) :
    (receive_result h (.error (.retry reasons))).2.retried =
      [accumReasons mtr.message reasons] ∧
    (receive_result h (.error (.retry reasons))).2.deliveries = [] ∧
    (receive_result h (.error (.retry reasons))).1.messages_to_receive =
      rest := by
  unfold receive_result
  rw [hq]
  simp [Except.isOk, Except.toBool, Effects.none]

theorem retry_resubmits_regardless_witness :
    (receive_result hNoRetry (.error (.retry [4]))).2.retried =
      [accumReasons noRetryGetMsg [4]] ∧
    (receive_result hNoRetry (.error (.retry [4]))).2.deliveries = [] ∧
    (receive_result hNoRetry (.error (.retry [4]))).1.messages_to_receive =
      [] :=
  retry_resubmits_regardless hNoRetry ⟨noRetryGetMsg, 1, 0⟩ [] [4] rfl

/-! ### C10 -/

/-- Processing one server unsubscribe confirmation through `handle_result`. -/
def unsubStep (h : NetworkHandler) (ch : String) : NetworkHandler × Effects :=
  handle_result h (.ok (.pubsubFrame (.unsubscribeConf ch)))

/-- C10: an `UNSUBSCRIBE` with zero arguments submitted while `Subscribed`
pushes an empty set onto `pending_unsubscriptions`; when the server's
unsubscribe confirmation then arrives, the empty head set is popped and
neither a synthetic OK nor the raw frame is passed on, so the message's
reply sink is never resolved by the pub/sub matcher. -/
theorem empty_unsubscribe_never_resolves (h h2 : NetworkHandler)
    (msg : Message) (sink : Nat) (ch : String)
    (restQ : List (List (String × SubscriptionType)))
    (hst : h.status = Status.Subscribed)
    (hcmd : msg.commands =
      Commands.single { name := "UNSUBSCRIBE", args := [] } (some sink))
    (hps : msg.pub_sub_senders = Option.none)
    (hpush : msg.push_sender = Option.none)
    (hst2 : h2.status = Status.Subscribed)
    (hpu : h2.pending_unsubscriptions = [] :: restQ) :
    (∃ h', handle_message_one h msg = some h' ∧
      h'.pending_unsubscriptions = h.pending_unsubscriptions ++ [[]]) ∧
    ((unsubStep h2 ch).2 = Effects.none ∧
      (unsubStep h2 ch).1.pending_unsubscriptions = restQ ∧
      (unsubStep h2 ch).1.messages_to_receive = h2.messages_to_receive) := by
  constructor
  · simp only [handle_message_one, hps, hpush, hst, hcmd]
    exact ⟨_, rfl, by simp [Commands.toList]⟩
  · unfold unsubStep handle_result
    rw [hst2]
    unfold handle_pubsub_result try_match_pubsub_message from_resp
    simp only [NetworkHandler.mk.injEq]
    simp [hpu, alistGet, Effects.none]

def emptyUnsubMsg : Message :=
  { commands := Commands.single { name := "UNSUBSCRIBE", args := [] } (some 5)
    pub_sub_senders := Option.none
    push_sender := Option.none
    retry_on_error := true
    retry_reasons := Option.none }

def hSubscribedBase : NetworkHandler :=
  { baseHandler with status := Status.Subscribed }

def hEmptyUnsub : NetworkHandler :=
  { baseHandler with
      status := Status.Subscribed
      pending_unsubscriptions := [[]]
      subscriptions := [("a", (SubscriptionType.Channel, 9))] }

theorem empty_unsubscribe_never_resolves_witness :
    (∃ h', handle_message_one hSubscribedBase emptyUnsubMsg = some h' ∧
      h'.pending_unsubscriptions =
        hSubscribedBase.pending_unsubscriptions ++ [[]]) ∧
    ((unsubStep hEmptyUnsub "a").2 = Effects.none ∧
      (unsubStep hEmptyUnsub "a").1.pending_unsubscriptions = [] ∧
      (unsubStep hEmptyUnsub "a").1.messages_to_receive =
        hEmptyUnsub.messages_to_receive) :=
  empty_unsubscribe_never_resolves hSubscribedBase hEmptyUnsub emptyUnsubMsg
    5 "a" [] rfl rfl rfl rfl rfl rfl

/-! ### C4 -/

def hFireForget : NetworkHandler :=
  { baseHandler with messages_to_send := [MessageToSend.new fireForgetMsg] }

/-- C4 counterexample: a `Commands::Single` submission with sender `None`
(fire-and-forget) still counts one awaited reply, so after a successful
`write_batch` it IS moved into `messages_to_receive` — the queue grows on its
account (the server owes a frame that must be consumed). -/
theorem fire_forget_counterexample :
    fireForgetMsg.commands = Commands.single pingCmd Option.none ∧
    (send_messages hFireForget (.ok ())).1.messages_to_receive =
      [⟨fireForgetMsg, 1, 0⟩] := by
  decide

/-- C4 amended: after a successful `write_batch`, a `Commands::None`
submission is dropped and `messages_to_receive` does not grow; a
`Commands::Single` with sender `None` does enter `messages_to_receive` (one
reply is owed by the server), but when its reply arrives it is discarded
without any delivery, retry, or other effect. -/
theorem fire_forget_amended (h h2 : NetworkHandler) (m msg : Message)
    (a : Nat) (rest : List MessageToReceive) (c : Command) (f : RespBuf)
    (hm : m.commands = Commands.none)
    (hsend : h.messages_to_send = [MessageToSend.new m])
    (hc : msg.commands = Commands.single c Option.none)
    (hr : msg.retry_reasons = Option.none)
    (hq : h2.messages_to_receive = ⟨msg, 1, a⟩ :: rest) :
    (send_messages h (.ok ())).1.messages_to_receive =
      h.messages_to_receive ∧
    (receive_result h2 (.ok f)).2 = Effects.none ∧
    (receive_result h2 (.ok f)).1.messages_to_receive = rest := by
  refine ⟨?_, ?_, ?_⟩
  · simp [send_messages, annotateMessages, hsend, hm, MessageToSend.new,
      countMessage, Commands.toList]
  · simp [receive_result, hq, hc, hr, Except.isOk, Except.toBool,
      Effects.none]
  · simp [receive_result, hq, hc, hr, Except.isOk, Except.toBool]

def noneMsg : Message :=
  { commands := Commands.none
    pub_sub_senders := Option.none
    push_sender := Option.none
    retry_on_error := true
    retry_reasons := Option.none }

def hNoneMsg : NetworkHandler :=
  { baseHandler with messages_to_send := [MessageToSend.new noneMsg] }

def hFireForgetQueue : NetworkHandler :=
  { baseHandler with messages_to_receive := [⟨fireForgetMsg, 1, 0⟩] }

theorem fire_forget_amended_witness :
    (send_messages hNoneMsg (.ok ())).1.messages_to_receive =
      hNoneMsg.messages_to_receive ∧
    (receive_result hFireForgetQueue (.ok (.simple 3))).2 = Effects.none ∧
    (receive_result hFireForgetQueue (.ok (.simple 3))).1.messages_to_receive = [] :=
  fire_forget_amended hNoneMsg hFireForgetQueue noneMsg fireForgetMsg 0 []
    pingCmd (.simple 3) rfl rfl rfl rfl rfl

/-! ### C6 -/

def offWithSinkMsg : Message :=
  { commands := Commands.single replyOffCmd (some 0)
    pub_sub_senders := Option.none
    push_sender := Option.none
    retry_on_error := true
    retry_reasons := Option.none }

def hOffSink : NetworkHandler :=
  { baseHandler with messages_to_send := [MessageToSend.new offWithSinkMsg] }

/-- C6 counterexample: when `write_batch` fails, a drained message that DOES
carry a reply sink but whose counted replies are 0 (here a single
`CLIENT REPLY OFF` command, whose own reply is suppressed) receives nothing
on its sink, contradicting "every drained message that has a reply sink
receives that same error". -/
theorem write_error_counterexample :
    offWithSinkMsg.commands = Commands.single replyOffCmd (some 0) ∧
    (send_messages hOffSink (.error (.other 0))).1.messages_to_send = [] ∧
    (send_messages hOffSink (.error (.other 0))).2.deliveries = [] := by
  decide

theorem annotateMessages_no_client (l : List MessageToSend)
    (hl : ∀ mts ∈ l, ∀ c ∈ mts.message.commands.toList, c.name ≠ "CLIENT") :
    annotateMessages true l =
      (true, l.map (fun mts =>
        ({ mts with
            message := { mts.message with retry_reasons := Option.none } },
         mts.message.commands.toList.length))) := by
  induction l with
  | nil => rfl
  | cons mts rest ih =>
      have h1 := countMessage_no_client mts.message.commands.toList
        (hl mts (List.mem_cons_self mts rest))
      have h2 := ih (fun x hx c hc => hl x (List.mem_cons_of_mem _ hx) c hc)
      simp [annotateMessages, h1, h2]

/-- The per-message sink delivery of the `write_batch` failure path of
`send_messages` (same error to a single or batch sink, nothing otherwise). -/
def writeErrorDelivery (e : Error) (cs : Commands) : Option Delivery :=
  match cs with
  | Commands.single _ (some s) => some ⟨s, SinkValue.single (.error e)⟩
  | Commands.batch _ s => some ⟨s, SinkValue.batch (.error e)⟩
  | _ => Option.none

theorem write_error_deliveries_aux (l : List MessageToSend) (e : Error)
    (hl : ∀ mts ∈ l, mts.message.commands.toList ≠ [] ∧
      ∀ c ∈ mts.message.commands.toList, c.name ≠ "CLIENT") :
    ((annotateMessages true l).2.filterMap (fun p =>
        if p.2 > 0 then writeErrorDelivery e p.1.message.commands
        else Option.none)) =
      l.filterMap (fun mts => writeErrorDelivery e mts.message.commands) := by
  induction l with
  | nil => rfl
  | cons mts rest ih =>
      obtain ⟨hne, hnc⟩ := hl mts (List.mem_cons_self mts rest)
      have hrest := ih (fun x hx => hl x (List.mem_cons_of_mem _ hx))
      cases hx : mts.message.commands with
      | none => rw [hx] at hne; simp [Commands.toList] at hne
      | single c sender =>
          have hc : c.name ≠ "CLIENT" := by
            rw [hx] at hnc
            exact hnc c (by simp [Commands.toList])
          cases sender with
          | none =>
              simpa [annotateMessages, hx, Commands.toList, countMessage,
                clientReplyUpdate_of_ne _ _ hc, List.filterMap_cons,
                writeErrorDelivery] using hrest
          | some s =>
              simpa [annotateMessages, hx, Commands.toList, countMessage,
                clientReplyUpdate_of_ne _ _ hc, List.filterMap_cons,
                writeErrorDelivery] using hrest
      | batch cs s =>
          have hnc2 : ∀ c ∈ cs, c.name ≠ "CLIENT" := by
            rw [hx] at hnc
            simpa [Commands.toList] using hnc
          have hne2 : cs ≠ [] := by
            rw [hx] at hne
            simpa [Commands.toList] using hne
          have hcount := countMessage_no_client cs hnc2
          have hlen : 0 < cs.length := List.length_pos.mpr hne2
          simpa [annotateMessages, hx, Commands.toList, hcount, hlen,
            List.filterMap_cons, writeErrorDelivery] using hrest

/-- C6 amended: when `write_batch` fails, `messages_to_send` is fully drained
and every drained message with at least one counted (non-suppressed) reply
and a reply sink — single or batch — receives that same error on its sink, in
queue order; a message all of whose replies are suppressed receives
nothing. -/
theorem write_error_amended (h : NetworkHandler) (e : Error)
    (hflag : h.is_reply_on = true)
    (hcs : ∀ mts ∈ h.messages_to_send,
      mts.message.commands.toList ≠ [] ∧
      ∀ c ∈ mts.message.commands.toList, c.name ≠ "CLIENT") :
    (send_messages h (.error e)).1.messages_to_send = [] ∧
    (send_messages h (.error e)).2.deliveries =
      h.messages_to_send.filterMap
        (fun mts => writeErrorDelivery e mts.message.commands) := by
  constructor
  · simp [send_messages]
  · have haux := write_error_deliveries_aux h.messages_to_send e hcs
    simp only [send_messages, hflag]
    simpa [writeErrorDelivery] using haux

def hTwoSinks : NetworkHandler :=
  { baseHandler with
      messages_to_send :=
        [MessageToSend.new (ordMsg pingCmd 0),
         MessageToSend.new (batchMsg [pingCmd] 1)] }

theorem write_error_amended_witness :
    (send_messages hTwoSinks (.error (.other 3))).1.messages_to_send = [] ∧
    (send_messages hTwoSinks (.error (.other 3))).2.deliveries =
      hTwoSinks.messages_to_send.filterMap
        (fun mts => writeErrorDelivery (.other 3) mts.message.commands) :=
  write_error_amended hTwoSinks (.other 3) rfl (by decide)

/-! ### C7 -/

theorem popGiveUps_eq (maxAttempts : Nat) (l : List MessageToReceive) :
    popGiveUps maxAttempts l =
      (l.dropWhile (shouldGiveUp maxAttempts),
       (l.takeWhile (shouldGiveUp maxAttempts)).flatMap
         (fun m => giveUpDeliveries m.message)) := by
  induction l with
  | nil => rfl
  | cons m rest ih =>
      by_cases hm : shouldGiveUp maxAttempts m = true
      · simp [popGiveUps, hm, List.dropWhile_cons, List.takeWhile_cons, ih]
      · have hm2 : shouldGiveUp maxAttempts m = false := by
          simpa using hm
        simp [popGiveUps, hm2, List.dropWhile_cons, List.takeWhile_cons]

/-- C7: during reconnect handling, every inflight message with
`retry_on_error` has its attempt counter bumped, and the head of the queue is
popped as long as the head is not retryable or has reached
`max_command_attempts`, each popped message resolving its sink with
`Client("Disconnected from server")`; popping stops at the first message that
is still retryable, preserving the order of the remainder. -/
theorem reconnect_retry_cap (h : NetworkHandler) :
    (reconnect_prune_receive h).1.messages_to_receive =
      (bumpReceiveAttempts h.messages_to_receive).dropWhile
        (shouldGiveUp h.max_command_attempts) ∧
    (reconnect_prune_receive h).2 =
      ((bumpReceiveAttempts h.messages_to_receive).takeWhile
        (shouldGiveUp h.max_command_attempts)).flatMap
        (fun m => giveUpDeliveries m.message) ∧
    ∀ d ∈ (reconnect_prune_receive h).2,
      d.value = SinkValue.single (.error disconnectedError) ∨
      d.value = SinkValue.batch (.error disconnectedError) := by
  have hpop := popGiveUps_eq h.max_command_attempts
    (bumpReceiveAttempts h.messages_to_receive)
  refine ⟨by simp [reconnect_prune_receive, hpop],
    by simp [reconnect_prune_receive, hpop], ?_⟩
  intro d hd
  simp only [reconnect_prune_receive, hpop] at hd
  rw [List.mem_flatMap] at hd
  obtain ⟨m, _, hdm⟩ := hd
  cases hcm : m.message.commands with
  | none => simp [giveUpDeliveries, hcm] at hdm
  | single c sender =>
      cases sender with
      | none => simp [giveUpDeliveries, hcm] at hdm
      | some s =>
          simp [giveUpDeliveries, hcm] at hdm
          left
          rw [hdm]
  | batch cs s =>
      simp [giveUpDeliveries, hcm] at hdm
      right
      rw [hdm]

/-! ### C1 -/

theorem annotate_ord (ps : List (Command × Nat))
    (hnc : ∀ p ∈ ps, p.1.name ≠ "CLIENT") :
    annotateMessages true
        (ps.map (fun p => MessageToSend.new (ordMsg p.1 p.2))) =
      (true,
       ps.map (fun p => (MessageToSend.new (ordMsg p.1 p.2), 1))) := by
  induction ps with
  | nil => rfl
  | cons p rest ih =>
      have hp := hnc p (List.mem_cons_self p rest)
      have hrest := ih (fun x hx => hnc x (List.mem_cons_of_mem _ hx))
      simp only [Prod.ext_iff, MessageToSend.new, ordMsg] at hrest
      simp [annotateMessages, MessageToSend.new, ordMsg, Commands.toList,
        countMessage, clientReplyUpdate_of_ne _ _ hp, hrest]

theorem filterMap_pos_ord (ps : List (Command × Nat)) :
    ((ps.map (fun p => (MessageToSend.new (ordMsg p.1 p.2), 1))).filterMap
      (fun q =>
        if q.2 > 0 then
          some (⟨q.1.message, q.2, q.1.attempts⟩ : MessageToReceive)
        else Option.none)) =
      ps.map (fun p => ⟨ordMsg p.1 p.2, 1, 0⟩) := by
  induction ps with
  | nil => rfl
  | cons p rest ih =>
      simp only [List.filterMap_map, MessageToSend.new, gt_iff_lt] at ih
      simp [MessageToSend.new, ih]

theorem receive_singles (l : List (Command × Nat)) (frames : List RespBuf)
    (h : NetworkHandler)
    (hq : h.messages_to_receive = l.map (fun p => ⟨ordMsg p.1 p.2, 1, 0⟩))
    (hlen : l.length = frames.length) :
    receiveMany h (frames.map .ok) =
      ({ h with messages_to_receive := [] },
       { Effects.none with
          deliveries :=
            (l.zip frames).map
              (fun q => ⟨q.1.2, SinkValue.single (.ok q.2)⟩) }) := by
  induction l generalizing h frames with
  | nil =>
      cases frames with
      | nil =>
          obtain ⟨st, ms, mr, psx, pu, su, ir, push, pr, mx⟩ := h
          simp only [List.map_nil] at hq
          subst hq
          simp [receiveMany, Effects.none]
      | cons f fs => simp at hlen
  | cons p l2 ih =>
      cases frames with
      | nil => simp at hlen
      | cons f fs =>
          have hlen2 : l2.length = fs.length := by simpa using hlen
          have hstep : receive_result h (.ok f) =
              ({ h with messages_to_receive :=
                  l2.map (fun p => ⟨ordMsg p.1 p.2, 1, 0⟩) },
               { Effects.none with
                  deliveries := [⟨p.2, SinkValue.single (.ok f)⟩] }) := by
            simp [receive_result, hq, ordMsg, Except.isOk, Except.toBool,
              Effects.none]
          have hrest := ih fs
            ({ h with messages_to_receive :=
                l2.map (fun p => ⟨ordMsg p.1 p.2, 1, 0⟩) })
            (by simp) hlen2
          simp [receiveMany, hstep, hrest, Effects.append, Effects.none]

/-- C1: for a queue of ordinary single-command submissions (no `CLIENT`
directives, no retry signals), a successful `send_messages` drains the FIFO
in order producing no effect, and feeding the server's replies through
`receive_result` delivers the i-th reply frame on the i-th submission's
sink. -/
theorem order_preservation (h : NetworkHandler) (ps : List (Command × Nat))
    (frames : List RespBuf)
    (hflag : h.is_reply_on = true)
    (hrecv : h.messages_to_receive = [])
    (hsend : h.messages_to_send =
      ps.map (fun p => MessageToSend.new (ordMsg p.1 p.2)))
    (hnc : ∀ p ∈ ps, p.1.name ≠ "CLIENT")
    (hlen : ps.length = frames.length) :
    (send_messages h (.ok ())).2 = Effects.none ∧
    (receiveMany (send_messages h (.ok ())).1 (frames.map .ok)).2 =
      { Effects.none with
          deliveries :=
            (ps.zip frames).map
              (fun q => ⟨q.1.2, SinkValue.single (.ok q.2)⟩) } := by
  have hannot := annotate_ord ps hnc
  have hfpos := filterMap_pos_ord ps
  simp only [List.filterMap_map] at hfpos
  have hq1 : (send_messages h (.ok ())).1.messages_to_receive =
      ps.map (fun p => ⟨ordMsg p.1 p.2, 1, 0⟩) := by
    simp [send_messages, hsend, hflag, hannot, hrecv, hfpos]
  refine ⟨by simp [send_messages], ?_⟩
  have := receive_singles ps frames (send_messages h (.ok ())).1 hq1 hlen
  rw [this]

theorem order_preservation_witness :
    (send_messages
      { baseHandler with
          messages_to_send :=
            [MessageToSend.new (ordMsg pingCmd 0),
             MessageToSend.new (ordMsg { name := "GET", args := ["k"] } 1)] }
      (.ok ())).2 = Effects.none ∧
    (receiveMany
        (send_messages
          { baseHandler with
              messages_to_send :=
                [MessageToSend.new (ordMsg pingCmd 0),
                 MessageToSend.new
                   (ordMsg { name := "GET", args := ["k"] } 1)] }
          (.ok ())).1
        ([RespBuf.simple 10, RespBuf.simple 11].map .ok)).2 =
      { Effects.none with
          deliveries :=
            ([(pingCmd, 0), ({ name := "GET", args := ["k"] }, 1)].zip
              [RespBuf.simple 10, RespBuf.simple 11]).map
              (fun q => ⟨q.1.2, SinkValue.single (.ok q.2)⟩) } :=
  order_preservation _
    [(pingCmd, 0), ({ name := "GET", args := ["k"] }, 1)]
    [RespBuf.simple 10, RespBuf.simple 11]
    rfl rfl rfl (by decide) rfl

/-! ### C2 -/

theorem Effects.append_assoc (a b c : Effects) :
    (a.append b).append c = a.append (b.append c) := by
  simp [Effects.append, Bool.or_assoc]

theorem receiveMany_cons (h : NetworkHandler) (r : RResult RespBuf)
    (rs : List (RResult RespBuf)) :
    receiveMany h (r :: rs) =
      ((receiveMany (receive_result h r).1 rs).1,
       (receive_result h r).2.append
         (receiveMany (receive_result h r).1 rs).2) := rfl

theorem receiveMany_append (h : NetworkHandler)
    (as bs : List (RResult RespBuf)) :
    receiveMany h (as ++ bs) =
      ((receiveMany (receiveMany h as).1 bs).1,
       (receiveMany h as).2.append
         (receiveMany (receiveMany h as).1 bs).2) := by
  induction as generalizing h with
  | nil => simp [receiveMany, Effects.none_append]
  | cons r as2 ih =>
      simp [receiveMany, ih, Effects.append_assoc]

theorem batch_oks (fs : List RespBuf) (f : RespBuf) (acc : List RespBuf)
    (h : NetworkHandler) (msg : Message) (cs : List Command) (sink a : Nat)
    (rest : List MessageToReceive)
    (hcmd : msg.commands = Commands.batch cs sink)
    (hrr : msg.retry_reasons = Option.none)
    (hq : h.messages_to_receive = ⟨msg, fs.length + 1, a⟩ :: rest)
    (hpr : h.pending_replies.getD [] = acc) :
    receiveMany h ((f :: fs).map .ok) =
      ({ h with
          messages_to_receive := rest
          pending_replies := Option.none },
       { Effects.none with
          deliveries :=
            [⟨sink, SinkValue.batch (.ok (acc ++ f :: fs))⟩] }) := by
  induction fs generalizing f acc h with
  | nil =>
      have hstep : receive_result h (.ok f) =
          ({ h with
              messages_to_receive := rest
              pending_replies := Option.none },
           { Effects.none with
              deliveries := [⟨sink, SinkValue.batch (.ok (acc ++ [f]))⟩] }) := by
        simp [receive_result, hq, hcmd, hrr, hpr, Except.isOk, Except.toBool,
          Effects.none]
      simp [receiveMany, hstep, Effects.append, Effects.none]
  | cons f2 fs2 ih =>
      have hne1 : ((fs2.length + 1 + 1 : Nat) == 1) = false := by
        simp
      have hstep : receive_result h (.ok f) =
          ({ h with
              pending_replies := some (acc ++ [f])
              messages_to_receive := ⟨msg, fs2.length + 1, a⟩ :: rest },
           Effects.none) := by
        simp [receive_result, hq, hne1, hpr, Except.isOk, Except.toBool,
          Effects.none]
      have hrest := ih f2 (acc ++ [f])
        ({ h with
            pending_replies := some (acc ++ [f])
            messages_to_receive := ⟨msg, fs2.length + 1, a⟩ :: rest })
        (by simp) (by simp)
      rw [List.map_cons, receiveMany_cons, hstep]
      dsimp only
      rw [hrest]
      simp [Effects.none_append, Effects.none, Effects.append]

theorem batch_oks_prefix (pre : List RespBuf) (acc : List RespBuf)
    (h : NetworkHandler) (msg : Message) (k a : Nat)
    (rest : List MessageToReceive)
    (hq : h.messages_to_receive = ⟨msg, k, a⟩ :: rest)
    (hpr : h.pending_replies.getD [] = acc)
    (hk : pre.length < k) :
    (receiveMany h (pre.map .ok)).1.messages_to_receive =
      ⟨msg, k - pre.length, a⟩ :: rest ∧
    (receiveMany h (pre.map .ok)).1.pending_replies.getD [] = acc ++ pre ∧
    (receiveMany h (pre.map .ok)).2 = Effects.none := by
  induction pre generalizing acc h k with
  | nil => simp [receiveMany, hq, hpr]
  | cons f pre2 ih =>
      have hk1 : ((k : Nat) == 1) = false := by
        have : k ≠ 1 := by
          have := hk
          simp at this
          omega
        simp [this]
      have hstep : receive_result h (.ok f) =
          ({ h with
              pending_replies := some (acc ++ [f])
              messages_to_receive := ⟨msg, k - 1, a⟩ :: rest },
           Effects.none) := by
        simp [receive_result, hq, hk1, hpr, Except.isOk, Except.toBool,
          Effects.none]
      have hrest := ih (acc ++ [f])
        ({ h with
            pending_replies := some (acc ++ [f])
            messages_to_receive := ⟨msg, k - 1, a⟩ :: rest })
        (k - 1) (by simp) (by simp)
        (by
          have := hk
          simp at this
          omega)
      refine ⟨?_, ?_, ?_⟩
      · simp only [List.map_cons, receiveMany, hstep]
        rw [hrest.1]
        congr 1
        simp
        omega
      · simp only [List.map_cons, receiveMany, hstep]
        rw [hrest.2.1]
        simp
      · simp only [List.map_cons, receiveMany, hstep]
        rw [hrest.2.2]
        simp [Effects.none_append]

theorem batch_error_step (h : NetworkHandler) (msg : Message)
    (cs : List Command) (sink k a : Nat) (rest : List MessageToReceive)
    (e : Error)
    (hcmd : msg.commands = Commands.batch cs sink)
    (hrr : msg.retry_reasons = Option.none)
    (hq : h.messages_to_receive = ⟨msg, k, a⟩ :: rest)
    (hre : e.isRetry = false) :
    receive_result h (.error e) =
      ({ h with messages_to_receive := rest },
       { Effects.none with
          deliveries := [⟨sink, SinkValue.batch (.error e)⟩] }) := by
  cases e with
  | retry rs => simp [Error.isRetry] at hre
  | client m =>
      simp [receive_result, hq, hcmd, hrr, Except.isOk, Except.toBool,
        Effects.none]
  | other i =>
      simp [receive_result, hq, hcmd, hrr, Except.isOk, Except.toBool,
        Effects.none]

/-- C2: a batch of K commands whose write succeeds either yields, once the K
server replies have arrived, a single delivery of the ordered reply vector of
length K on the batch's results sink with the `pending_replies` accumulator
cleared, or — if an error (non-redirect) arrives after any proper prefix of
replies — a single delivery of that error. -/
theorem batch_atomicity (h : NetworkHandler) (cs : List Command) (sink : Nat)
    (frames : List RespBuf) (e : Error) (j : Nat)
    (hflag : h.is_reply_on = true)
    (hrecv : h.messages_to_receive = [])
    (hpend : h.pending_replies = Option.none)
    (hsend : h.messages_to_send = [MessageToSend.new (batchMsg cs sink)])
    (hnc : ∀ c ∈ cs, c.name ≠ "CLIENT")
    (hne : cs ≠ [])
    (hlen : frames.length = cs.length)
    (hj : j < cs.length)
    (hre : e.isRetry = false) :
    ((receiveMany (send_messages h (.ok ())).1 (frames.map .ok)).2 =
        { Effects.none with
            deliveries := [⟨sink, SinkValue.batch (.ok frames)⟩] } ∧
      (receiveMany (send_messages h (.ok ())).1
          (frames.map .ok)).1.pending_replies = Option.none) ∧
    (receiveMany (send_messages h (.ok ())).1
        ((frames.take j).map .ok ++ [.error e])).2 =
      { Effects.none with
          deliveries := [⟨sink, SinkValue.batch (.error e)⟩] } := by
  have hcount := countMessage_no_client cs hnc
  have hq1 : (send_messages h (.ok ())).1.messages_to_receive =
      [⟨batchMsg cs sink, cs.length, 0⟩] := by
    simp [send_messages, hsend, hflag, hrecv, annotateMessages, batchMsg,
      MessageToSend.new, Commands.toList, hcount,
      List.length_pos.mpr hne]
  have hp1 : (send_messages h (.ok ())).1.pending_replies = Option.none := by
    simp [send_messages, hpend]
  constructor
  · cases frames with
    | nil =>
        exfalso
        have := List.length_pos.mpr hne
        rw [← hlen] at this
        simp at this
    | cons f fs =>
        have hlen2 : cs.length = fs.length + 1 := by
          simpa using hlen.symm
        have hmain := batch_oks fs f [] (send_messages h (.ok ())).1
          (batchMsg cs sink) cs sink 0 [] rfl rfl
          (by rw [hq1, hlen2]) (by simp [hp1])
        rw [hmain]
        constructor
        · simp
        · simp
  · have hpre := batch_oks_prefix (frames.take j) []
      (send_messages h (.ok ())).1 (batchMsg cs sink) cs.length 0 [] hq1
      (by simp [hp1])
      (by
        rw [List.length_take]
        omega)
    have happ := receiveMany_append (send_messages h (.ok ())).1
      ((frames.take j).map .ok) [.error e]
    have herr := batch_error_step
      (receiveMany (send_messages h (.ok ())).1 ((frames.take j).map .ok)).1
      (batchMsg cs sink) cs sink (cs.length - (frames.take j).length) 0 []
      e rfl rfl hpre.1 hre
    rw [happ]
    dsimp only
    rw [hpre.2.2, receiveMany_cons, herr]
    dsimp only
    simp [receiveMany, Effects.none_append, Effects.append_none,
      Effects.none, Effects.append]

def hBatchDemo : NetworkHandler :=
  { baseHandler with
      messages_to_send :=
        [MessageToSend.new
          (batchMsg
            [{ name := "SET", args := ["k", "1"] },
             { name := "INCR", args := ["k"] }] 9)] }

theorem batch_atomicity_witness :
    ((receiveMany (send_messages hBatchDemo (.ok ())).1
        ([RespBuf.simple 1, RespBuf.simple 2].map .ok)).2 =
      { Effects.none with
          deliveries :=
            [⟨9, SinkValue.batch (.ok [RespBuf.simple 1, RespBuf.simple 2])⟩] } ∧
      (receiveMany (send_messages hBatchDemo (.ok ())).1
          ([RespBuf.simple 1, RespBuf.simple 2].map .ok)).1.pending_replies =
        Option.none) ∧
    (receiveMany (send_messages hBatchDemo (.ok ())).1
        (([RespBuf.simple 1, RespBuf.simple 2].take 1).map .ok ++
          [.error (.other 5)])).2 =
      { Effects.none with
          deliveries := [⟨9, SinkValue.batch (.error (.other 5))⟩] } :=
  batch_atomicity hBatchDemo
    [{ name := "SET", args := ["k", "1"] }, { name := "INCR", args := ["k"] }]
    9 [RespBuf.simple 1, RespBuf.simple 2] (.other 5) 1
    rfl rfl rfl rfl (by decide) (by decide) rfl (by decide) rfl

/-! ### C8 -/

/-- Pending-subscription entries registered by a `SUBSCRIBE` submission:
channel names with their per-channel pub/sub sink ids. -/
def mkPending (regs : List (String × Nat)) :
    List (String × (SubscriptionType × Nat)) :=
  regs.map (fun r => (r.1, (SubscriptionType.Channel, r.2)))

/-- The server's subscribe confirmation frame for one channel. -/
def subConf (ch : String) : RResult RespBuf :=
  .ok (.pubsubFrame (.subscribeConf ch))

/-- The server's subscribe confirmations for a registration list, in order. -/
def mkConfs (regs : List (String × Nat)) : List (RResult RespBuf) :=
  regs.map (fun r => subConf r.1)

theorem handleMany_cons (h : NetworkHandler) (r : RResult RespBuf)
    (rs : List (RResult RespBuf)) :
    handleMany h (r :: rs) =
      ((handleMany (handle_result h r).1 rs).1,
       (handle_result h r).2.append
         (handleMany (handle_result h r).1 rs).2) := rfl

theorem handleMany_append (h : NetworkHandler)
    (as bs : List (RResult RespBuf)) :
    handleMany h (as ++ bs) =
      ((handleMany (handleMany h as).1 bs).1,
       (handleMany h as).2.append (handleMany (handleMany h as).1 bs).2) := by
  induction as generalizing h with
  | nil => simp [handleMany, Effects.none_append]
  | cons r as2 ih => simp [handleMany, ih, Effects.append_assoc]

theorem sub_step (h : NetworkHandler) (ch : String)
    (entry : SubscriptionType × Nat)
    (pend2 : List (String × (SubscriptionType × Nat)))
    (hst : h.status = Status.Subscribing ∨ h.status = Status.Subscribed)
    (hp : h.pending_subscriptions = (ch, entry) :: pend2)
    (hne : pend2 ≠ []) :
    handle_result h (subConf ch) =
      ({ h with
          status := Status.Subscribed
          pending_subscriptions := pend2
          subscriptions := alistInsert ch entry h.subscriptions },
       Effects.none) := by
  have hemp : pend2.isEmpty = false := by
    cases pend2 with
    | nil => exact absurd rfl hne
    | cons a b => rfl
  rcases hst with hst | hst
  · unfold handle_result
    rw [hst]
    unfold handle_pubsub_result try_match_pubsub_message from_resp subConf
    simp [hp, alistGet, alistRemove, hemp, Except.isOk, Except.toBool,
      Effects.none]
  · unfold handle_result
    rw [hst]
    unfold handle_pubsub_result try_match_pubsub_message from_resp subConf
    simp [hp, alistGet, alistRemove, hemp, Effects.none, hst]

theorem sub_final_step (h : NetworkHandler) (ch : String)
    (entry : SubscriptionType × Nat) (msg : Message) (c : Command)
    (sink a : Nat) (rest : List MessageToReceive)
    (hst : h.status = Status.Subscribing ∨ h.status = Status.Subscribed)
    (hp : h.pending_subscriptions = [(ch, entry)])
    (hq : h.messages_to_receive = ⟨msg, 1, a⟩ :: rest)
    (hcmd : msg.commands = Commands.single c (some sink))
    (hrr : msg.retry_reasons = Option.none) :
    (handle_result h (subConf ch)).2 =
      { Effects.none with
          deliveries := [⟨sink, SinkValue.single (.ok RespBuf.ok)⟩] } ∧
    (handle_result h (subConf ch)).1.pending_subscriptions = [] ∧
    (handle_result h (subConf ch)).1.messages_to_receive = rest := by
  rcases hst with hst | hst <;>
  · unfold handle_result
    rw [hst]
    unfold handle_pubsub_result try_match_pubsub_message from_resp subConf
    simp [hp, alistGet, alistRemove, receive_result, hq, hcmd, hrr,
      Except.isOk, Except.toBool, Effects.none]

theorem sub_prefix_run (regs rest2 : List (String × Nat)) (h : NetworkHandler)
    (hst : h.status = Status.Subscribing ∨ h.status = Status.Subscribed)
    (hp : h.pending_subscriptions = mkPending (regs ++ rest2))
    (hne : rest2 ≠ []) :
    ∃ h2, handleMany h (mkConfs regs) = (h2, Effects.none) ∧
      h2.pending_subscriptions = mkPending rest2 ∧
      h2.messages_to_receive = h.messages_to_receive ∧
      (h2.status = Status.Subscribing ∨ h2.status = Status.Subscribed) := by
  induction regs generalizing h with
  | nil =>
      refine ⟨h, rfl, ?_, rfl, hst⟩
      rw [hp]
      rfl
  | cons r regs2 ih =>
      have hne2 : mkPending (regs2 ++ rest2) ≠ [] := by
        cases rest2 with
        | nil => exact absurd rfl hne
        | cons a b =>
            simp [mkPending]
      have hstep := sub_step h r.1 (SubscriptionType.Channel, r.2)
        (mkPending (regs2 ++ rest2)) hst
        (by rw [hp]; rfl) hne2
      have hmid := ih
        ({ h with
            status := Status.Subscribed
            pending_subscriptions := mkPending (regs2 ++ rest2)
            subscriptions :=
              alistInsert r.1 (SubscriptionType.Channel, r.2)
                h.subscriptions })
        (Or.inr rfl) rfl
      obtain ⟨h2, heq, hp2, hmtr2, hst2⟩ := hmid
      refine ⟨h2, ?_, hp2, by rw [hmtr2], hst2⟩
      show handleMany h (subConf r.1 :: mkConfs regs2) = (h2, Effects.none)
      rw [handleMany_cons, hstep]
      dsimp only
      rw [heq]
      simp [Effects.none_append]

/-- C8: with a `SUBSCRIBE` submission of k channels at the head of
`messages_to_receive` and its k pending-subscription entries registered, the
submission's sink receives the single synthetic OK reply exactly on the k-th
subscribe confirmation (when `pending_subscriptions` becomes empty); after any
proper prefix of confirmations no delivery has been made and the head
expectation is untouched. -/
theorem subscription_confirmation (h : NetworkHandler)
    (regs : List (String × Nat)) (msg : Message) (c : Command)
    (sink a j : Nat)
    (hst : h.status = Status.Subscribing)
    (hp : h.pending_subscriptions = mkPending regs)
    (hq : h.messages_to_receive = [⟨msg, 1, a⟩])
    (hcmd : msg.commands = Commands.single c (some sink))
    (hrr : msg.retry_reasons = Option.none)
    (hne : regs ≠ [])
    (hj : j < regs.length) :
    ((handleMany h (mkConfs (regs.take j))).2.deliveries = [] ∧
      (handleMany h (mkConfs (regs.take j))).1.messages_to_receive =
        [⟨msg, 1, a⟩]) ∧
    ((handleMany h (mkConfs regs)).2 =
        { Effects.none with
            deliveries := [⟨sink, SinkValue.single (.ok RespBuf.ok)⟩] } ∧
      (handleMany h (mkConfs regs)).1.pending_subscriptions = []) := by
  constructor
  · have hdrop : regs.drop j ≠ [] := by
      intro hcon
      have := List.drop_eq_nil_iff.mp hcon
      omega
    have hpart := sub_prefix_run (regs.take j) (regs.drop j) h (Or.inl hst)
      (by rw [hp, List.take_append_drop]) hdrop
    obtain ⟨h2, heq, _, hmtr2, _⟩ := hpart
    rw [heq]
    exact ⟨rfl, by rw [hmtr2, hq]⟩
  · obtain ⟨init, last, hsplit⟩ :
        ∃ init last, regs = init ++ [last] := by
      rcases List.eq_nil_or_concat regs with hcon | ⟨L, b, hLb⟩
      · exact absurd hcon hne
      · exact ⟨L, b, by rw [hLb, List.concat_eq_append]⟩
    have hpart := sub_prefix_run init [last] h
      (Or.inl hst) (by rw [hp, hsplit]) (by simp)
    obtain ⟨h2, heq, hp2, hmtr2, hst2⟩ := hpart
    have hfin := sub_final_step h2 last.1
      (SubscriptionType.Channel, last.2) msg c sink a []
      hst2 (by rw [hp2]; rfl) (by rw [hmtr2, hq]) hcmd hrr
    have hconfs : mkConfs regs = mkConfs init ++ [subConf last.1] := by
      rw [hsplit]
      simp [mkConfs]
    rw [hconfs, handleMany_append, heq]
    dsimp only
    rw [handleMany_cons]
    constructor
    · simp [handleMany, Effects.none_append, Effects.append_none, hfin.1]
    · simp [handleMany, hfin.2.1]

def hSubDemo : NetworkHandler :=
  { baseHandler with
      status := Status.Subscribing
      pending_subscriptions := mkPending [("a", 20), ("b", 21)]
      messages_to_receive :=
        [⟨ordMsg { name := "SUBSCRIBE", args := ["a", "b"] } 3, 1, 0⟩] }

theorem subscription_confirmation_witness :
    ((handleMany hSubDemo (mkConfs ([("a", 20), ("b", 21)].take 1))).2.deliveries = [] ∧
      (handleMany hSubDemo (mkConfs ([("a", 20), ("b", 21)].take 1))).1.messages_to_receive =
        [⟨ordMsg { name := "SUBSCRIBE", args := ["a", "b"] } 3, 1, 0⟩]) ∧
    ((handleMany hSubDemo (mkConfs [("a", 20), ("b", 21)])).2 =
        { Effects.none with
            deliveries := [⟨3, SinkValue.single (.ok RespBuf.ok)⟩] } ∧
      (handleMany hSubDemo (mkConfs [("a", 20), ("b", 21)])).1.pending_subscriptions = []) :=
  subscription_confirmation hSubDemo [("a", 20), ("b", 21)]
    (ordMsg { name := "SUBSCRIBE", args := ["a", "b"] } 3)
    { name := "SUBSCRIBE", args := ["a", "b"] } 3 0 1
    rfl rfl rfl rfl rfl (by decide) (by decide)

end Rustis
